import Mathlib

/-!
Shallow embedding of the gateway resilience layer of the repository:
the circuit breaker (`src/backend/src/gateway/circuit_breaker.py`) and the
rate limiter (`src/backend/src/gateway/rate_limiter.py`).

Conventions of the embedding:
* `datetime` / `time.time()` timestamps are rationals (seconds).
* Python floats are rationals; Python `int(x)` is truncation toward zero.
* Redis hashes/sorted sets are modelled per key: a circuit's hash is a
  `CircuitBreakerStats`, the sliding-window sorted set is a list of distinct
  scores, the token/leaky bucket hashes are `Option` records (absent key =
  `none`).
* `async` methods are state-passing functions; the per-key lock discipline of
  the source means each operation runs atomically, so an operation is a plain
  function from state to state.
-/

namespace Gateway

/-- Python `int(x)` on a rational: truncation toward zero. -/
def pyInt (q : ℚ) : ℤ := if 0 ≤ q then ⌊q⌋ else ⌈q⌉

/-! ## Circuit breaker: data model (`circuit_breaker.py`) -/

/-- `CircuitState` enum: CLOSED / OPEN / HALF_OPEN. -/
inductive CircuitState where
  | closed
  | opened
  | halfOpen
deriving DecidableEq

/-- `CircuitBreakerConfig` (pydantic model).  Field constraints are captured
separately by `CircuitBreakerConfig.Valid` and enforced by
`mkCircuitBreakerConfig`. -/
structure CircuitBreakerConfig where
  failure_threshold : ℤ := 5
  success_threshold : ℤ := 3
  timeout : ℤ := 60
  slow_call_duration_threshold : ℚ := 5
  slow_call_rate_threshold : ℚ := 8/10
  minimum_number_of_calls : ℤ := 10
  sliding_window_size : ℤ := 100
  max_wait_duration_in_half_open : ℤ := 30
deriving DecidableEq

/-- The pydantic `Field` constraints on `CircuitBreakerConfig`
(`ge=1`, `ge=0.1`, `le=1.0`, `ge=10` as in the source). -/
def CircuitBreakerConfig.Valid (c : CircuitBreakerConfig) : Prop :=
  1 ≤ c.failure_threshold ∧ 1 ≤ c.success_threshold ∧ 1 ≤ c.timeout ∧
  1/10 ≤ c.slow_call_duration_threshold ∧
  (1/10 ≤ c.slow_call_rate_threshold ∧ c.slow_call_rate_threshold ≤ 1) ∧
  1 ≤ c.minimum_number_of_calls ∧ 10 ≤ c.sliding_window_size ∧
  1 ≤ c.max_wait_duration_in_half_open

instance (c : CircuitBreakerConfig) : Decidable c.Valid := by
  unfold CircuitBreakerConfig.Valid; infer_instance

/-- Constructing a `CircuitBreakerConfig`: pydantic validates every field
constraint at construction time and raises a validation error on the first
violated one. -/
def mkCircuitBreakerConfig (ft st tmo : ℤ) (slowd slowr : ℚ) (minc win maxw : ℤ) :
    Except String CircuitBreakerConfig :=
  if ft < 1 then .error "failure_threshold"
  else if st < 1 then .error "success_threshold"
  else if tmo < 1 then .error "timeout"
  else if slowd < 1/10 then .error "slow_call_duration_threshold"
  else if slowr < 1/10 then .error "slow_call_rate_threshold"
  else if 1 < slowr then .error "slow_call_rate_threshold"
  else if minc < 1 then .error "minimum_number_of_calls"
  else if win < 10 then .error "sliding_window_size"
  else if maxw < 1 then .error "max_wait_duration_in_half_open"
  else .ok ⟨ft, st, tmo, slowd, slowr, minc, win, maxw⟩

/-- `CircuitBreakerStats` (pydantic model, the per-service mutable record,
also the hash persisted at `circuit_breaker:{service}`). -/
structure CircuitBreakerStats where
  state : CircuitState
  failure_count : ℤ := 0
  success_count : ℤ := 0
  last_failure_time : Option ℚ := none
  last_success_time : Option ℚ := none
  total_requests : ℤ := 0
  failed_requests : ℤ := 0
  slow_requests : ℤ := 0
  average_response_time : ℚ := 0
  next_attempt_time : Option ℚ := none
deriving DecidableEq

/-- A freshly created stats record, `CircuitBreakerStats(state=CLOSED)`:
all counters zero, no timestamps. -/
def freshStats : CircuitBreakerStats := { state := .closed }

/-! ## Circuit breaker: operations -/

/-- `_transition_to_open`: set state OPEN and
`next_attempt_time = now + timeout`. -/
def transitionToOpen (stats : CircuitBreakerStats) (config : CircuitBreakerConfig)
    (now : ℚ) : CircuitBreakerStats :=
  { stats with state := .opened, next_attempt_time := some (now + config.timeout) }

/-- `_transition_to_half_open`: state HALF_OPEN, both counters reset to 0,
`next_attempt_time` cleared. -/
def transitionToHalfOpen (stats : CircuitBreakerStats) : CircuitBreakerStats :=
  { stats with state := .halfOpen, success_count := 0, failure_count := 0,
               next_attempt_time := none }

/-- `_transition_to_closed`: state CLOSED, both counters reset to 0,
`next_attempt_time` cleared. -/
def transitionToClosed (stats : CircuitBreakerStats) : CircuitBreakerStats :=
  { stats with state := .closed, success_count := 0, failure_count := 0,
               next_attempt_time := none }

/-- `_apply_sliding_window`: multiplicative decay of the accumulated counters
by `reduction_factor = 0.8`, each truncated back to `int`. -/
def applySlidingWindow (stats : CircuitBreakerStats) : CircuitBreakerStats :=
  { stats with
      total_requests := pyInt ((stats.total_requests : ℚ) * (8/10)),
      failed_requests := pyInt ((stats.failed_requests : ℚ) * (8/10)),
      slow_requests := pyInt ((stats.slow_requests : ℚ) * (8/10)) }

/-- `_record_success(service, stats, config, response_time)` at wall-clock
`now`: increment counters, update the running average, count a slow call,
close from HALF_OPEN once `success_count ≥ success_threshold`, then apply the
sliding-window decay when `total_requests > sliding_window_size`. -/
def recordSuccess (stats : CircuitBreakerStats) (config : CircuitBreakerConfig)
    (now rt : ℚ) : CircuitBreakerStats :=
  let s1 := { stats with success_count := stats.success_count + 1,
                         total_requests := stats.total_requests + 1,
                         last_success_time := some now }
  let s2 := { s1 with average_response_time :=
                if s1.total_requests = 1 then rt
                else (s1.average_response_time * ((s1.total_requests : ℚ) - 1) + rt)
                       / (s1.total_requests : ℚ) }
  let s3 := if config.slow_call_duration_threshold < rt
            then { s2 with slow_requests := s2.slow_requests + 1 } else s2
  let s4 := if s3.state = .halfOpen then
              (if config.success_threshold ≤ s3.success_count
               then transitionToClosed s3 else s3)
            else s3
  if config.sliding_window_size < s4.total_requests then applySlidingWindow s4 else s4

/-- `_record_failure(service, stats, config, response_time)` at wall-clock
`now`: increment counters, update the running average, open from CLOSED once
`failure_count ≥ failure_threshold`, open immediately from HALF_OPEN, then
apply the sliding-window decay when `total_requests > sliding_window_size`. -/
def recordFailure (stats : CircuitBreakerStats) (config : CircuitBreakerConfig)
    (now rt : ℚ) : CircuitBreakerStats :=
  let s1 := { stats with failure_count := stats.failure_count + 1,
                         total_requests := stats.total_requests + 1,
                         failed_requests := stats.failed_requests + 1,
                         last_failure_time := some now }
  let s2 := { s1 with average_response_time :=
                if s1.total_requests = 1 then rt
                else (s1.average_response_time * ((s1.total_requests : ℚ) - 1) + rt)
                       / (s1.total_requests : ℚ) }
  let s3 := if s2.state = .closed then
              (if config.failure_threshold ≤ s2.failure_count
               then transitionToOpen s2 config now else s2)
            else if s2.state = .halfOpen then transitionToOpen s2 config now
            else s2
  if config.sliding_window_size < s3.total_requests then applySlidingWindow s3 else s3

/-- `_can_proceed_async(service, stats, config)` at wall-clock `now`: returns
the decision together with the (possibly transitioned) stats.  CLOSED
evaluates the sample-gated failure/slow rates; OPEN waits for
`next_attempt_time` then transitions to HALF_OPEN; HALF_OPEN admits calls
while `success_count < success_threshold`. -/
def canProceedAsync (stats : CircuitBreakerStats) (config : CircuitBreakerConfig)
    (now : ℚ) : Bool × CircuitBreakerStats :=
  match stats.state with
  | .closed =>
      if config.minimum_number_of_calls ≤ stats.total_requests then
        let failure_rate : ℚ := (stats.failed_requests : ℚ) / (stats.total_requests : ℚ)
        let slow_rate : ℚ := (stats.slow_requests : ℚ) / (stats.total_requests : ℚ)
        if 1/2 ≤ failure_rate ∨ config.slow_call_rate_threshold ≤ slow_rate then
          (false, transitionToOpen stats config now)
        else (true, stats)
      else (true, stats)
  | .opened =>
      match stats.next_attempt_time with
      | some t => if t ≤ now then (true, transitionToHalfOpen stats) else (false, stats)
      | none => (false, stats)
  | .halfOpen => (decide (stats.success_count < config.success_threshold), stats)

/-- The `CircuitBreaker` object's mutable map `self._circuits`
(service name → stats; a missing service has no stats yet). -/
def CircuitMap := String → Option CircuitBreakerStats

/-- The synchronous `can_proceed(service_name, config)` method: a read-only
query over `self._circuits`.  It returns its decision together with the
(unchanged) circuits map; the source performs no assignment (the OPEN branch
explicitly defers the transition to the async method). -/
def canProceedMethod (circuits : CircuitMap) (service_name : String)
    (config : CircuitBreakerConfig) (now : ℚ) : Bool × CircuitMap :=
  match circuits service_name with
  | none => (true, circuits)
  | some stats =>
      match stats.state with
      | .closed => (true, circuits)
      | .opened =>
          match stats.next_attempt_time with
          | some t => (decide (t ≤ now), circuits)
          | none => (false, circuits)
      | .halfOpen =>
          (decide (stats.success_count < config.success_threshold), circuits)

/-- `reset_circuit(service_name)`: store a fresh CLOSED stats record for the
service in `self._circuits` (and the shared store). -/
def resetCircuit (circuits : CircuitMap) (service_name : String) : CircuitMap :=
  fun s => if s = service_name then some freshStats else circuits s

/-- The `"trading"` entry of `CircuitBreaker.__init__`'s default table. -/
def tradingConfig : CircuitBreakerConfig :=
  { failure_threshold := 3, timeout := 30, slow_call_duration_threshold := 2 }

/-- The `"risk"` entry of the default table. -/
def riskConfig : CircuitBreakerConfig :=
  { failure_threshold := 5, timeout := 60, slow_call_duration_threshold := 5 }

/-- The `"compliance"` entry of the default table. -/
def complianceConfig : CircuitBreakerConfig :=
  { failure_threshold := 10, timeout := 120, slow_call_duration_threshold := 10 }

/-- The `"iot"` entry of the default table. -/
def iotConfig : CircuitBreakerConfig :=
  { failure_threshold := 8, timeout := 45, slow_call_duration_threshold := 3 }

/-- The `"default"` entry of the default table (all pydantic defaults). -/
def defaultConfig : CircuitBreakerConfig := {}

/-- The per-service default configurations from `CircuitBreaker.__init__`. -/
def defaultCircuitConfigs : List (String × CircuitBreakerConfig) :=
  [("trading", tradingConfig), ("risk", riskConfig),
   ("compliance", complianceConfig), ("iot", iotConfig),
   ("default", defaultConfig)]

/-! ## Rate limiter: data model (`rate_limiter.py`) -/

/-- `RateLimitStrategy` enum. -/
inductive RateLimitStrategy where
  | fixedWindow
  | slidingWindow
  | tokenBucket
  | leakyBucket
deriving DecidableEq

/-- `RateLimitConfig` (pydantic model). -/
structure RateLimitConfig where
  strategy : RateLimitStrategy := .slidingWindow
  requests_per_minute : ℤ := 100
  requests_per_hour : ℤ := 1000
  requests_per_day : ℤ := 10000
  burst_limit : ℤ := 20
  bucket_capacity : ℤ := 100
  refill_rate : ℚ := 1
  leak_rate : ℚ := 1/2
deriving DecidableEq

/-- The pydantic `Field` constraints on `RateLimitConfig`
(`ge=1` on the integer fields, `ge=0.1` on the rates). -/
def RateLimitConfig.Valid (c : RateLimitConfig) : Prop :=
  1 ≤ c.requests_per_minute ∧ 1 ≤ c.requests_per_hour ∧ 1 ≤ c.requests_per_day ∧
  1 ≤ c.burst_limit ∧ 1 ≤ c.bucket_capacity ∧
  1/10 ≤ c.refill_rate ∧ 1/10 ≤ c.leak_rate

instance (c : RateLimitConfig) : Decidable c.Valid := by
  unfold RateLimitConfig.Valid; infer_instance

/-- Constructing a `RateLimitConfig`: pydantic validates every field
constraint at construction time. -/
def mkRateLimitConfig (strat : RateLimitStrategy) (rpm rph rpd burst cap : ℤ)
    (refill leak : ℚ) : Except String RateLimitConfig :=
  if rpm < 1 then .error "requests_per_minute"
  else if rph < 1 then .error "requests_per_hour"
  else if rpd < 1 then .error "requests_per_day"
  else if burst < 1 then .error "burst_limit"
  else if cap < 1 then .error "bucket_capacity"
  else if refill < 1/10 then .error "refill_rate"
  else if leak < 1/10 then .error "leak_rate"
  else .ok ⟨strat, rpm, rph, rpd, burst, cap, refill, leak⟩

/-- `RateLimitResult` (pydantic model). -/
structure RateLimitResult where
  allowed : Bool
  requests_remaining : ℤ
  reset_time : ℚ
  retry_after : Option ℤ := none
deriving DecidableEq

/-- Hash at `rate_limit:token:{identifier}` (fields `tokens`, `last_refill`). -/
structure TokenBucket where
  tokens : ℚ
  last_refill : ℚ
deriving DecidableEq

/-- Hash at `rate_limit:leaky:{identifier}` (fields `volume`, `last_leak`). -/
structure LeakyBucket where
  volume : ℚ
  last_leak : ℚ
deriving DecidableEq

/-- One entry of `self._local_cache` (created with `requests=[]`,
`tokens=bucket_capacity`, `last_refill=now`, `volume=0`, `last_leak=now`). -/
structure LocalEntry where
  requests : List ℚ
  tokens : ℚ
  last_refill : ℚ
  volume : ℚ
  last_leak : ℚ
deriving DecidableEq

/-- The dict stored into `self._local_cache[identifier]` on first sight. -/
def freshLocalEntry (config : RateLimitConfig) (now : ℚ) : LocalEntry :=
  ⟨[], (config.bucket_capacity : ℚ), now, 0, now⟩

/-! ## Rate limiter: per-strategy algorithms -/

/-- `datetime.replace(second=0, microsecond=0)`: floor to the minute. -/
def minuteFloor (now : ℚ) : ℚ := 60 * (⌊now / 60⌋ : ℤ)

/-- Redis path of `_fixed_window_check`, acting on the counter stored at
`rate_limit:fixed:{identifier}:{minute_bucket}` (`0` when the key is absent):
deny when `count ≥ requests_per_minute`, else `INCR`. -/
def fixedWindowCheckRedis (count : ℤ) (config : RateLimitConfig) (now : ℚ) :
    RateLimitResult × ℤ :=
  let window_start := minuteFloor now
  if config.requests_per_minute ≤ count then
    (⟨false, 0, window_start + 60, some 60⟩, count)
  else
    (⟨true, config.requests_per_minute - count - 1, window_start + 60, none⟩, count + 1)

/-- `ZADD key {str(now): now}`: a sorted set keyed by member, so adding an
already-present score is a no-op on the cardinality. -/
def insertScore (zset : List ℚ) (t : ℚ) : List ℚ :=
  if t ∈ zset then zset else zset ++ [t]

/-- Redis path of `_sliding_window_check`, acting on the sorted set at
`rate_limit:sliding:{identifier}` (modelled as its list of scores):
`ZREMRANGEBYSCORE -inf (now-60)`, count, deny when `count ≥ limit` with
`retry_after = int(oldest + 60 - now)`, else `ZADD now`. -/
def slidingWindowCheckRedis (zset : List ℚ) (config : RateLimitConfig) (now : ℚ) :
    RateLimitResult × List ℚ :=
  let window_start := now - 60
  let z1 := zset.filter (fun t => decide (window_start < t))
  let current_count : ℤ := z1.length
  if config.requests_per_minute ≤ current_count then
    let retry_after : ℤ :=
      match z1.min? with
      | some oldest => pyInt (oldest + 60 - now)
      | none => 60
    (⟨false, 0, now + retry_after, some retry_after⟩, z1)
  else
    (⟨true, config.requests_per_minute - current_count - 1, now + 60, none⟩,
     insertScore z1 now)

/-- The Lua script of `_token_bucket_check`: refill
`tokens = min(capacity, tokens + elapsed*refill_rate)`; if `tokens < 1`
return denied WITHOUT writing the hash, else consume one token and `HMSET`.
Returns (allowed, reported tokens, stored hash afterwards). -/
def tokenBucketScript (bucket : Option TokenBucket) (capacity refill_rate now : ℚ) :
    Bool × ℚ × Option TokenBucket :=
  let tokens0 := (bucket.map TokenBucket.tokens).getD capacity
  let last_refill := (bucket.map TokenBucket.last_refill).getD now
  let tokens1 := min capacity (tokens0 + (now - last_refill) * refill_rate)
  if tokens1 < 1 then (false, tokens1, bucket)
  else (true, tokens1 - 1, some ⟨tokens1 - 1, now⟩)

/-- Redis path of `_token_bucket_check`: run the Lua script and package the
`RateLimitResult` (`retry_after = int(1/refill_rate)` on denial). -/
def tokenBucketCheckRedis (bucket : Option TokenBucket) (config : RateLimitConfig)
    (now : ℚ) : RateLimitResult × Option TokenBucket :=
  let r := tokenBucketScript bucket (config.bucket_capacity : ℚ) config.refill_rate now
  if r.1 then
    (⟨true, pyInt r.2.1,
      now + ((config.bucket_capacity : ℚ) - r.2.1) / config.refill_rate, none⟩, r.2.2)
  else
    let retry_after := pyInt (1 / config.refill_rate)
    (⟨false, 0, now + retry_after, some retry_after⟩, r.2.2)

/-- The Lua script of `_leaky_bucket_check`: leak
`volume = max(0, volume - elapsed*leak_rate)`; if `volume ≥ capacity` return
denied without writing, else add 1 unit and `HMSET`. -/
def leakyBucketScript (bucket : Option LeakyBucket) (capacity leak_rate now : ℚ) :
    Bool × ℚ × Option LeakyBucket :=
  let volume0 := (bucket.map LeakyBucket.volume).getD 0
  let last_leak := (bucket.map LeakyBucket.last_leak).getD now
  let volume1 := max 0 (volume0 - (now - last_leak) * leak_rate)
  if capacity ≤ volume1 then (false, volume1, bucket)
  else (true, volume1 + 1, some ⟨volume1 + 1, now⟩)

/-- Redis path of `_leaky_bucket_check`. -/
def leakyBucketCheckRedis (bucket : Option LeakyBucket) (config : RateLimitConfig)
    (now : ℚ) : RateLimitResult × Option LeakyBucket :=
  let r := leakyBucketScript bucket (config.bucket_capacity : ℚ) config.leak_rate now
  if r.1 then
    (⟨true, pyInt ((config.bucket_capacity : ℚ) - r.2.1),
      now + r.2.1 / config.leak_rate, none⟩, r.2.2)
  else
    let retry_after := pyInt (1 / config.leak_rate)
    (⟨false, 0, now + retry_after, some retry_after⟩, r.2.2)

/-- `_local_cache_check(identifier, config, strategy)`: the in-process
fallback used when no Redis client is configured.  Only the "sliding" and
"token" strategies are approximated; every other strategy string falls
through to an unconditional allow.  Returns the result together with the
entry stored back into `self._local_cache[identifier]`. -/
def localCacheCheck (cache : Option LocalEntry) (config : RateLimitConfig)
    (strategy : String) (now : ℚ) : RateLimitResult × LocalEntry :=
  let entry := cache.getD (freshLocalEntry config now)
  if strategy = "sliding" then
    let reqs := entry.requests.filter (fun t => decide (now - t < 60))
    if config.requests_per_minute ≤ (reqs.length : ℤ) then
      let retry_after : ℤ := pyInt ((reqs.head?.getD 0) + 60 - now)
      (⟨false, 0, now + retry_after, some retry_after⟩, { entry with requests := reqs })
    else
      let reqs' := reqs ++ [now]
      (⟨true, config.requests_per_minute - (reqs'.length : ℤ), now + 60, none⟩,
       { entry with requests := reqs' })
  else if strategy = "token" then
    let tokens1 := min (config.bucket_capacity : ℚ)
      (entry.tokens + (now - entry.last_refill) * config.refill_rate)
    let e1 := { entry with tokens := tokens1, last_refill := now }
    if e1.tokens < 1 then
      let retry_after := pyInt (1 / config.refill_rate)
      (⟨false, 0, now + retry_after, some retry_after⟩, e1)
    else
      let e2 := { e1 with tokens := e1.tokens - 1 }
      (⟨true, pyInt e2.tokens,
        now + ((config.bucket_capacity : ℚ) - e2.tokens) / config.refill_rate, none⟩, e2)
  else
    (⟨true, config.requests_per_minute, now + 60, none⟩, entry)

/-! ## Rate limiter: the `RateLimiter` object -/

/-- How a shared-store call behaves during one check: the client is present
and working, the client is present but every call raises (timeout/connection
error, caught by the `except` arm), or no client is configured
(`self.redis_client is None`, the local-cache arm). -/
inductive StoreMode where
  | ok
  | failing
  | absent
deriving DecidableEq

/-- Point update of a string-keyed table. -/
def updateFn {α : Type} (f : String → α) (k : String) (v : α) : String → α :=
  fun s => if s = k then v else f s

/-- The mutable state of a `RateLimiter` instance together with the shared
store keys it owns: per-identifier fixed-window counters (keyed also by the
minute bucket), sliding-window sorted sets, token/leaky hashes, and
`self._local_cache`. -/
structure RateLimiterState where
  fixedStore : String → ℚ → ℤ
  slidingStore : String → List ℚ
  tokenStore : String → Option TokenBucket
  leakyStore : String → Option LeakyBucket
  localCache : String → Option LocalEntry

/-- The `except` arm common to all four strategy checks: fail open with a
logged error, `requests_remaining` at the configured limit, nothing touched. -/
def failOpenResult (remaining : ℤ) (now : ℚ) : RateLimitResult :=
  ⟨true, remaining, now + 60, none⟩

/-- `_fixed_window_check`. -/
def fixedWindowCheck (mode : StoreMode) (st : RateLimiterState) (identifier : String)
    (config : RateLimitConfig) (now : ℚ) : RateLimitResult × RateLimiterState :=
  match mode with
  | .failing => (failOpenResult config.requests_per_minute now, st)
  | .absent =>
      let r := localCacheCheck (st.localCache identifier) config "fixed" now
      (r.1, { st with localCache := updateFn st.localCache identifier (some r.2) })
  | .ok =>
      let r := fixedWindowCheckRedis (st.fixedStore identifier (minuteFloor now)) config now
      let bucketed := fun w => if w = minuteFloor now then r.2 else st.fixedStore identifier w
      (r.1, { st with fixedStore := updateFn st.fixedStore identifier bucketed })

/-- `_sliding_window_check`. -/
def slidingWindowCheck (mode : StoreMode) (st : RateLimiterState) (identifier : String)
    (config : RateLimitConfig) (now : ℚ) : RateLimitResult × RateLimiterState :=
  match mode with
  | .failing => (failOpenResult config.requests_per_minute now, st)
  | .absent =>
      let r := localCacheCheck (st.localCache identifier) config "sliding" now
      (r.1, { st with localCache := updateFn st.localCache identifier (some r.2) })
  | .ok =>
      let r := slidingWindowCheckRedis (st.slidingStore identifier) config now
      (r.1, { st with slidingStore := updateFn st.slidingStore identifier r.2 })

/-- `_token_bucket_check`. -/
def tokenBucketCheck (mode : StoreMode) (st : RateLimiterState) (identifier : String)
    (config : RateLimitConfig) (now : ℚ) : RateLimitResult × RateLimiterState :=
  match mode with
  | .failing => (failOpenResult config.bucket_capacity now, st)
  | .absent =>
      let r := localCacheCheck (st.localCache identifier) config "token" now
      (r.1, { st with localCache := updateFn st.localCache identifier (some r.2) })
  | .ok =>
      let r := tokenBucketCheckRedis (st.tokenStore identifier) config now
      (r.1, { st with tokenStore := updateFn st.tokenStore identifier r.2 })

/-- `_leaky_bucket_check`. -/
def leakyBucketCheck (mode : StoreMode) (st : RateLimiterState) (identifier : String)
    (config : RateLimitConfig) (now : ℚ) : RateLimitResult × RateLimiterState :=
  match mode with
  | .failing => (failOpenResult config.bucket_capacity now, st)
  | .absent =>
      let r := localCacheCheck (st.localCache identifier) config "leaky" now
      (r.1, { st with localCache := updateFn st.localCache identifier (some r.2) })
  | .ok =>
      let r := leakyBucketCheckRedis (st.leakyStore identifier) config now
      (r.1, { st with leakyStore := updateFn st.leakyStore identifier r.2 })

/-- `check_rate_limit(identifier, config)`: dispatch on the configured
strategy. -/
def checkRateLimit (mode : StoreMode) (st : RateLimiterState) (identifier : String)
    (config : RateLimitConfig) (now : ℚ) : RateLimitResult × RateLimiterState :=
  match config.strategy with
  | .fixedWindow => fixedWindowCheck mode st identifier config now
  | .slidingWindow => slidingWindowCheck mode st identifier config now
  | .tokenBucket => tokenBucketCheck mode st identifier config now
  | .leakyBucket => leakyBucketCheck mode st identifier config now

/-- `reset_rate_limit(identifier)`: delete every shared-store key matching
`rate_limit:*:{identifier}*` and drop `self._local_cache[identifier]`. -/
def resetRateLimit (st : RateLimiterState) (identifier : String) : RateLimiterState :=
  { fixedStore := fun s w => if s = identifier then 0 else st.fixedStore s w,
    slidingStore := fun s => if s = identifier then [] else st.slidingStore s,
    tokenStore := fun s => if s = identifier then none else st.tokenStore s,
    leakyStore := fun s => if s = identifier then none else st.leakyStore s,
    localCache := fun s => if s = identifier then none else st.localCache s }

/-! ## The operations driving a single service's stats record -/

/-- One atomic operation on a service's `CircuitBreakerStats` (each runs
under the per-service lock in the source): recording an outcome, the async
admission check (which drives transitions), or the administrative reset. -/
inductive CircuitOp where
  | recSuccess (now rt : ℚ)
  | recFailure (now rt : ℚ)
  | proceed (now : ℚ)
  | reset
deriving DecidableEq

/-- Apply one operation to a stats record. -/
def applyCircuitOp (config : CircuitBreakerConfig) (op : CircuitOp)
    (s : CircuitBreakerStats) : CircuitBreakerStats :=
  match op with
  | .recSuccess now rt => recordSuccess s config now rt
  | .recFailure now rt => recordFailure s config now rt
  | .proceed now => (canProceedAsync s config now).2
  | .reset => freshStats

/-- The stats invariant of the spec's data model: `next_attempt_time` is set
only while the circuit is OPEN. -/
def StatsInv (s : CircuitBreakerStats) : Prop :=
  s.next_attempt_time ≠ none → s.state = .opened

instance (s : CircuitBreakerStats) : Decidable (StatsInv s) := by
  unfold StatsInv; infer_instance

/-! ## Concrete scenarios used by the claims -/

/-- Three consecutive failures (instant responses) recorded against a fresh
CLOSED circuit at times 1, 2, 3. -/
def threeFailures (config : CircuitBreakerConfig) : CircuitBreakerStats :=
  recordFailure (recordFailure (recordFailure freshStats config 1 0) config 2 0)
    config 3 0

/-- Four successes then six failures (ten calls in all, 60% failure rate)
recorded against a fresh CLOSED circuit under the given config. -/
def sixOfTenFailures (config : CircuitBreakerConfig) : CircuitBreakerStats :=
  let s := recordSuccess freshStats config 1 0
  let s := recordSuccess s config 2 0
  let s := recordSuccess s config 3 0
  let s := recordSuccess s config 4 0
  let s := recordFailure s config 5 0
  let s := recordFailure s config 6 0
  let s := recordFailure s config 7 0
  let s := recordFailure s config 8 0
  let s := recordFailure s config 9 0
  recordFailure s config 10 0

/-- A circuit that transitioned to OPEN with `next_attempt_time = 100`. -/
def openAtHundred : CircuitBreakerStats :=
  { state := .opened, next_attempt_time := some 100 }

/-- A circuits map recording `openAtHundred` for the service `"svc"`. -/
def openCircuitMap : CircuitMap :=
  fun s => if s = "svc" then some openAtHundred else none

/-- A fresh HALF_OPEN record, as produced by `_transition_to_half_open`. -/
def halfOpenFresh : CircuitBreakerStats := transitionToHalfOpen openAtHundred

/-- A sliding-window rate-limit configuration with 5 requests per minute. -/
def slideConfig : RateLimitConfig :=
  { strategy := .slidingWindow, requests_per_minute := 5 }

/-- A token-bucket rate-limit configuration (capacity 100, 1 token/s). -/
def tokenConfig : RateLimitConfig :=
  { strategy := .tokenBucket, bucket_capacity := 100, refill_rate := 1 }

/-- The sliding-window scenario: five checks against an initially empty
sorted set at times 100, 100.2, 100.4, 100.6, 100.8 (all within one second),
chained through the store. -/
def swCheck1 : RateLimitResult × List ℚ := slidingWindowCheckRedis [] slideConfig 100
/-- Second check of the sliding-window scenario. -/
def swCheck2 : RateLimitResult × List ℚ :=
  slidingWindowCheckRedis swCheck1.2 slideConfig (501/5)
/-- Third check of the sliding-window scenario. -/
def swCheck3 : RateLimitResult × List ℚ :=
  slidingWindowCheckRedis swCheck2.2 slideConfig (502/5)
/-- Fourth check of the sliding-window scenario. -/
def swCheck4 : RateLimitResult × List ℚ :=
  slidingWindowCheckRedis swCheck3.2 slideConfig (503/5)
/-- Fifth check of the sliding-window scenario. -/
def swCheck5 : RateLimitResult × List ℚ :=
  slidingWindowCheckRedis swCheck4.2 slideConfig (504/5)
/-- Sixth check, 30 s after the first (inside the same 60 s window). -/
def swCheck6 : RateLimitResult × List ℚ :=
  slidingWindowCheckRedis swCheck5.2 slideConfig 130
/-- Sixth check taken instead at 159.5, still inside the 60 s window of all
five requests but within its final second. -/
def swCheck6Late : RateLimitResult × List ℚ :=
  slidingWindowCheckRedis swCheck5.2 slideConfig (319/2)

/-- A local-cache entry whose token bucket holds half a token, last refilled
at time 0. -/
def halfTokenEntry : LocalEntry := ⟨[], 1/2, 0, 0, 0⟩

/-- A local-cache entry already holding five requests of the sliding-window
scenario (so the local approximation is at its limit). -/
def busyEntry : LocalEntry := ⟨[100, 501/5, 502/5, 503/5, 504/5], 100, 0, 0, 0⟩

/-- A limiter state with an empty store whose local cache maps `"u"` to
`busyEntry`. -/
def busyState : RateLimiterState :=
  ⟨fun _ _ => 0, fun _ => [], fun _ => none, fun _ => none,
   fun s => if s = "u" then some busyEntry else none⟩

/-- A limiter state with an empty store whose local cache maps `"u"` to
`halfTokenEntry`. -/
def halfTokenState : RateLimiterState :=
  ⟨fun _ _ => 0, fun _ => [], fun _ => none, fun _ => none,
   fun s => if s = "u" then some halfTokenEntry else none⟩

/-!
# Theorems

First some shared helper lemmas about the circuit-breaker operations, then
one theorem (plus counterexample / witness where needed) per claim of the
specification, in claim order.
-/

/-- `_apply_sliding_window` touches only the three decayed counters. -/
theorem applySlidingWindow_frame (s : CircuitBreakerStats) :
    (applySlidingWindow s).state = s.state ∧
    (applySlidingWindow s).success_count = s.success_count ∧
    (applySlidingWindow s).failure_count = s.failure_count ∧
    (applySlidingWindow s).next_attempt_time = s.next_attempt_time :=
  ⟨rfl, rfl, rfl, rfl⟩

/-- `_record_success` either leaves the state alone (incrementing
`success_count`) or closes a HALF_OPEN circuit with both counters reset. -/
theorem recordSuccess_fields (s : CircuitBreakerStats) (config : CircuitBreakerConfig)
    (now rt : ℚ) :
    ((recordSuccess s config now rt).state = s.state ∧
     (recordSuccess s config now rt).success_count = s.success_count + 1 ∧
     (recordSuccess s config now rt).failure_count = s.failure_count ∧
     (recordSuccess s config now rt).next_attempt_time = s.next_attempt_time) ∨
    (s.state = .halfOpen ∧ config.success_threshold ≤ s.success_count + 1 ∧
     (recordSuccess s config now rt).state = .closed ∧
     (recordSuccess s config now rt).success_count = 0 ∧
     (recordSuccess s config now rt).failure_count = 0 ∧
     (recordSuccess s config now rt).next_attempt_time = none) := by
  simp only [recordSuccess, transitionToClosed, applySlidingWindow]
  split_ifs <;>
    first
      | exact Or.inl ⟨rfl, rfl, rfl, rfl⟩
      | exact Or.inr ⟨by assumption, by assumption, rfl, rfl, rfl, rfl⟩

/-- `_record_failure` either leaves the state and `next_attempt_time` alone
or transitions to OPEN with `next_attempt_time = now + timeout`; either way
`success_count` is untouched and the state never moves to CLOSED or
HALF_OPEN. -/
theorem recordFailure_fields (s : CircuitBreakerStats) (config : CircuitBreakerConfig)
    (now rt : ℚ) :
    (recordFailure s config now rt).success_count = s.success_count ∧
    (((recordFailure s config now rt).state = s.state ∧
      (recordFailure s config now rt).next_attempt_time = s.next_attempt_time) ∨
     ((recordFailure s config now rt).state = .opened ∧
      (recordFailure s config now rt).next_attempt_time = some (now + config.timeout))) := by
  simp only [recordFailure, transitionToOpen, applySlidingWindow]
  split_ifs <;>
    first
      | exact ⟨rfl, Or.inl ⟨rfl, rfl⟩⟩
      | exact ⟨rfl, Or.inr ⟨rfl, rfl⟩⟩

/-- `_can_proceed_async` returns the stats unchanged, or opens a CLOSED
circuit, or half-opens an OPEN one. -/
theorem canProceedAsync_fields (s : CircuitBreakerStats) (config : CircuitBreakerConfig)
    (now : ℚ) :
    (canProceedAsync s config now).2 = s ∨
    (s.state = .closed ∧ (canProceedAsync s config now).2 = transitionToOpen s config now) ∨
    (s.state = .opened ∧ (canProceedAsync s config now).2 = transitionToHalfOpen s) := by
  unfold canProceedAsync
  cases hs : s.state with
  | closed =>
      dsimp only
      split_ifs <;> simp_all
  | opened =>
      cases hn : s.next_attempt_time with
      | none => simp_all
      | some t =>
          dsimp only
          split_ifs <;> simp_all
  | halfOpen => simp_all

/-- In HALF_OPEN, a success below the threshold keeps the circuit HALF_OPEN
and just increments `success_count`. -/
theorem recordSuccess_halfOpen_progress (s : CircuitBreakerStats)
    (config : CircuitBreakerConfig) (now rt : ℚ) (hst : s.state = .halfOpen)
    (hlt : s.success_count + 1 < config.success_threshold) :
    (recordSuccess s config now rt).state = .halfOpen ∧
    (recordSuccess s config now rt).success_count = s.success_count + 1 := by
  rcases recordSuccess_fields s config now rt with h | h
  · exact ⟨h.1.trans hst, h.2.1⟩
  · omega

/-- In HALF_OPEN, the success that reaches the threshold closes the circuit
with both counters reset. -/
theorem recordSuccess_halfOpen_close (s : CircuitBreakerStats)
    (config : CircuitBreakerConfig) (now rt : ℚ) (hst : s.state = .halfOpen)
    (hge : config.success_threshold ≤ s.success_count + 1) :
    (recordSuccess s config now rt).state = .closed ∧
    (recordSuccess s config now rt).success_count = 0 ∧
    (recordSuccess s config now rt).failure_count = 0 ∧
    (recordSuccess s config now rt).next_attempt_time = none := by
  simp only [recordSuccess, transitionToClosed, applySlidingWindow]
  split_ifs <;> exact ⟨rfl, rfl, rfl, rfl⟩

/-- In HALF_OPEN, any failure immediately reopens the circuit with a fresh
`next_attempt_time = now + timeout`. -/
theorem recordFailure_halfOpen_reopens (s : CircuitBreakerStats)
    (config : CircuitBreakerConfig) (now rt : ℚ) (hst : s.state = .halfOpen) :
    (recordFailure s config now rt).state = .opened ∧
    (recordFailure s config now rt).next_attempt_time = some (now + config.timeout) := by
  simp only [recordFailure, transitionToOpen, applySlidingWindow]
  split_ifs <;>
    first
      | exact ⟨rfl, rfl⟩
      | simp_all

/-- Normal form of the `"token"` branch of `_local_cache_check`: refill,
overwrite `(tokens, last_refill)` with the refilled value, then either deny
(keeping the refilled value) or consume one token. -/
theorem localCacheCheck_token (cache : Option LocalEntry) (config : RateLimitConfig)
    (now : ℚ) :
    localCacheCheck cache config "token" now
      = (let entry := cache.getD (freshLocalEntry config now)
         let tokens1 := min (config.bucket_capacity : ℚ)
           (entry.tokens + (now - entry.last_refill) * config.refill_rate)
         if tokens1 < 1 then
           (⟨false, 0, now + (pyInt (1 / config.refill_rate) : ℤ),
             some (pyInt (1 / config.refill_rate))⟩,
            { entry with tokens := tokens1, last_refill := now })
         else
           (⟨true, pyInt (tokens1 - 1),
             now + ((config.bucket_capacity : ℚ) - (tokens1 - 1)) / config.refill_rate,
             none⟩,
            { entry with tokens := tokens1 - 1, last_refill := now })) := rfl

/-- Claim C1, counterexample: under the `"trading"` entry of the default
table — which has `minimum_number_of_calls = 10` — three consecutive
recorded failures out of three total calls DO move the breaker to OPEN,
because `_record_failure`'s cumulative `failure_count ≥ failure_threshold`
check ignores the sample-size gate.  The claim asserts the state must stay
out of OPEN for every such service. -/
theorem circuit_small_sample_opens_for_trading :
    ("trading", tradingConfig) ∈ defaultCircuitConfigs ∧
    tradingConfig.minimum_number_of_calls = 10 ∧
    (threeFailures tradingConfig).total_requests = 3 ∧
    (threeFailures tradingConfig).state = .opened := by
  refine ⟨by simp [defaultCircuitConfigs], rfl, ?_, ?_⟩ <;>
    norm_num [threeFailures, recordFailure, freshStats, tradingConfig,
      transitionToOpen, applySlidingWindow, pyInt]

/-- Claim C1, amended: the Closed→Open decision of `_record_failure` uses the
cumulative `failure_count` against `failure_threshold` and ignores
`minimum_number_of_calls`.  So 3 consecutive failures out of 3 calls leave
the breaker CLOSED exactly for the services whose `failure_threshold`
exceeds 3 (risk, compliance, iot, default) and open it for trading; 6
failures out of 10 calls end in OPEN (for the default config via the count
check, and for a circuit that reaches CLOSED with 10 requests and 6 failures
— as under the compliance config — via the sample-gated rate check on the
next `_can_proceed_async`); and 3 failures out of 3 do not trip the
sample-gated rate check itself. -/
theorem circuit_threshold_sample_gate_amended :
    (threeFailures riskConfig).state = .closed ∧
    (threeFailures complianceConfig).state = .closed ∧
    (threeFailures iotConfig).state = .closed ∧
    (threeFailures defaultConfig).state = .closed ∧
    (threeFailures tradingConfig).state = .opened ∧
    (sixOfTenFailures defaultConfig).state = .opened ∧
    (sixOfTenFailures complianceConfig).state = .closed ∧
    (sixOfTenFailures complianceConfig).total_requests = 10 ∧
    (sixOfTenFailures complianceConfig).failed_requests = 6 ∧
    (canProceedAsync (sixOfTenFailures complianceConfig) complianceConfig 11).1 = false ∧
    (canProceedAsync (sixOfTenFailures complianceConfig) complianceConfig 11).2.state
      = .opened ∧
    (canProceedAsync (threeFailures riskConfig) riskConfig 4).1 = true := by
  have d1 : recordSuccess freshStats defaultConfig 1 0
      = ⟨.closed, 0, 1, none, some 1, 1, 0, 0, 0, none⟩ := by
    norm_num [recordSuccess, freshStats, defaultConfig, transitionToClosed, applySlidingWindow,
      (by decide : CircuitState.closed ≠ CircuitState.halfOpen)]
  have d2 : recordSuccess ⟨.closed, 0, 1, none, some 1, 1, 0, 0, 0, none⟩ defaultConfig 2 0
      = ⟨.closed, 0, 2, none, some 2, 2, 0, 0, 0, none⟩ := by
    norm_num [recordSuccess, defaultConfig, transitionToClosed, applySlidingWindow,
      (by decide : CircuitState.closed ≠ CircuitState.halfOpen)]
  have d3 : recordSuccess ⟨.closed, 0, 2, none, some 2, 2, 0, 0, 0, none⟩ defaultConfig 3 0
      = ⟨.closed, 0, 3, none, some 3, 3, 0, 0, 0, none⟩ := by
    norm_num [recordSuccess, defaultConfig, transitionToClosed, applySlidingWindow,
      (by decide : CircuitState.closed ≠ CircuitState.halfOpen)]
  have d4 : recordSuccess ⟨.closed, 0, 3, none, some 3, 3, 0, 0, 0, none⟩ defaultConfig 4 0
      = ⟨.closed, 0, 4, none, some 4, 4, 0, 0, 0, none⟩ := by
    norm_num [recordSuccess, defaultConfig, transitionToClosed, applySlidingWindow,
      (by decide : CircuitState.closed ≠ CircuitState.halfOpen)]
  have d5 : recordFailure ⟨.closed, 0, 4, none, some 4, 4, 0, 0, 0, none⟩ defaultConfig 5 0
      = ⟨.closed, 1, 4, some 5, some 4, 5, 1, 0, 0, none⟩ := by
    norm_num [recordFailure, defaultConfig, transitionToOpen, applySlidingWindow]
  have d6 : recordFailure ⟨.closed, 1, 4, some 5, some 4, 5, 1, 0, 0, none⟩ defaultConfig 6 0
      = ⟨.closed, 2, 4, some 6, some 4, 6, 2, 0, 0, none⟩ := by
    norm_num [recordFailure, defaultConfig, transitionToOpen, applySlidingWindow]
  have d7 : recordFailure ⟨.closed, 2, 4, some 6, some 4, 6, 2, 0, 0, none⟩ defaultConfig 7 0
      = ⟨.closed, 3, 4, some 7, some 4, 7, 3, 0, 0, none⟩ := by
    norm_num [recordFailure, defaultConfig, transitionToOpen, applySlidingWindow]
  have d8 : recordFailure ⟨.closed, 3, 4, some 7, some 4, 7, 3, 0, 0, none⟩ defaultConfig 8 0
      = ⟨.closed, 4, 4, some 8, some 4, 8, 4, 0, 0, none⟩ := by
    norm_num [recordFailure, defaultConfig, transitionToOpen, applySlidingWindow]
  have d9 : recordFailure ⟨.closed, 4, 4, some 8, some 4, 8, 4, 0, 0, none⟩ defaultConfig 9 0
      = ⟨.opened, 5, 4, some 9, some 4, 9, 5, 0, 0, some 69⟩ := by
    norm_num [recordFailure, defaultConfig, transitionToOpen, applySlidingWindow]
  have d10 : recordFailure ⟨.opened, 5, 4, some 9, some 4, 9, 5, 0, 0, some 69⟩
        defaultConfig 10 0
      = ⟨.opened, 6, 4, some 10, some 4, 10, 6, 0, 0, some 69⟩ := by
    norm_num [recordFailure, defaultConfig, transitionToOpen, applySlidingWindow,
      (by decide : CircuitState.opened ≠ CircuitState.closed),
      (by decide : CircuitState.opened ≠ CircuitState.halfOpen)]
  have hsixD : sixOfTenFailures defaultConfig
      = ⟨.opened, 6, 4, some 10, some 4, 10, 6, 0, 0, some 69⟩ := by
    simp only [sixOfTenFailures]
    rw [d1, d2, d3, d4, d5, d6, d7, d8, d9, d10]
  have c1 : recordSuccess freshStats complianceConfig 1 0
      = ⟨.closed, 0, 1, none, some 1, 1, 0, 0, 0, none⟩ := by
    norm_num [recordSuccess, freshStats, complianceConfig, transitionToClosed,
      applySlidingWindow, (by decide : CircuitState.closed ≠ CircuitState.halfOpen)]
  have c2 : recordSuccess ⟨.closed, 0, 1, none, some 1, 1, 0, 0, 0, none⟩ complianceConfig 2 0
      = ⟨.closed, 0, 2, none, some 2, 2, 0, 0, 0, none⟩ := by
    norm_num [recordSuccess, complianceConfig, transitionToClosed, applySlidingWindow,
      (by decide : CircuitState.closed ≠ CircuitState.halfOpen)]
  have c3 : recordSuccess ⟨.closed, 0, 2, none, some 2, 2, 0, 0, 0, none⟩ complianceConfig 3 0
      = ⟨.closed, 0, 3, none, some 3, 3, 0, 0, 0, none⟩ := by
    norm_num [recordSuccess, complianceConfig, transitionToClosed, applySlidingWindow,
      (by decide : CircuitState.closed ≠ CircuitState.halfOpen)]
  have c4 : recordSuccess ⟨.closed, 0, 3, none, some 3, 3, 0, 0, 0, none⟩ complianceConfig 4 0
      = ⟨.closed, 0, 4, none, some 4, 4, 0, 0, 0, none⟩ := by
    norm_num [recordSuccess, complianceConfig, transitionToClosed, applySlidingWindow,
      (by decide : CircuitState.closed ≠ CircuitState.halfOpen)]
  have c5 : recordFailure ⟨.closed, 0, 4, none, some 4, 4, 0, 0, 0, none⟩ complianceConfig 5 0
      = ⟨.closed, 1, 4, some 5, some 4, 5, 1, 0, 0, none⟩ := by
    norm_num [recordFailure, complianceConfig, transitionToOpen, applySlidingWindow]
  have c6 : recordFailure ⟨.closed, 1, 4, some 5, some 4, 5, 1, 0, 0, none⟩ complianceConfig 6 0
      = ⟨.closed, 2, 4, some 6, some 4, 6, 2, 0, 0, none⟩ := by
    norm_num [recordFailure, complianceConfig, transitionToOpen, applySlidingWindow]
  have c7 : recordFailure ⟨.closed, 2, 4, some 6, some 4, 6, 2, 0, 0, none⟩ complianceConfig 7 0
      = ⟨.closed, 3, 4, some 7, some 4, 7, 3, 0, 0, none⟩ := by
    norm_num [recordFailure, complianceConfig, transitionToOpen, applySlidingWindow]
  have c8 : recordFailure ⟨.closed, 3, 4, some 7, some 4, 7, 3, 0, 0, none⟩ complianceConfig 8 0
      = ⟨.closed, 4, 4, some 8, some 4, 8, 4, 0, 0, none⟩ := by
    norm_num [recordFailure, complianceConfig, transitionToOpen, applySlidingWindow]
  have c9 : recordFailure ⟨.closed, 4, 4, some 8, some 4, 8, 4, 0, 0, none⟩ complianceConfig 9 0
      = ⟨.closed, 5, 4, some 9, some 4, 9, 5, 0, 0, none⟩ := by
    norm_num [recordFailure, complianceConfig, transitionToOpen, applySlidingWindow]
  have c10 : recordFailure ⟨.closed, 5, 4, some 9, some 4, 9, 5, 0, 0, none⟩
        complianceConfig 10 0
      = ⟨.closed, 6, 4, some 10, some 4, 10, 6, 0, 0, none⟩ := by
    norm_num [recordFailure, complianceConfig, transitionToOpen, applySlidingWindow]
  have hsixC : sixOfTenFailures complianceConfig
      = ⟨.closed, 6, 4, some 10, some 4, 10, 6, 0, 0, none⟩ := by
    simp only [sixOfTenFailures]
    rw [c1, c2, c3, c4, c5, c6, c7, c8, c9, c10]
  have hthreeR : threeFailures riskConfig = ⟨.closed, 3, 0, some 3, none, 3, 3, 0, 0, none⟩ := by
    norm_num [threeFailures, recordFailure, freshStats, riskConfig, transitionToOpen,
      applySlidingWindow]
  refine ⟨by rw [hthreeR], ?_, ?_, ?_, ?_, by rw [hsixD], by rw [hsixC], by rw [hsixC],
    by rw [hsixC], ?_, ?_, ?_⟩
  · norm_num [threeFailures, recordFailure, freshStats, complianceConfig, transitionToOpen,
      applySlidingWindow]
  · norm_num [threeFailures, recordFailure, freshStats, iotConfig, transitionToOpen,
      applySlidingWindow]
  · norm_num [threeFailures, recordFailure, freshStats, defaultConfig, transitionToOpen,
      applySlidingWindow]
  · norm_num [threeFailures, recordFailure, freshStats, tradingConfig, transitionToOpen,
      applySlidingWindow]
  · rw [hsixC]
    norm_num [canProceedAsync, complianceConfig, transitionToOpen]
  · rw [hsixC]
    norm_num [canProceedAsync, complianceConfig, transitionToOpen]
  · rw [hthreeR]
    norm_num [canProceedAsync, riskConfig]

/-- Claim C2, counterexample: a circuit that opened with
`next_attempt_time = 100` admits a probe at time 100 (transitioning to
HALF_OPEN with counters reset) — but a second `_can_proceed_async` call at
the same instant, before any outcome of the probe is recorded, is ALSO
allowed (HALF_OPEN admits calls while `success_count < success_threshold`),
contradicting "all other concurrent/subsequent calls before the probe's
outcome are still denied". -/
theorem open_probe_not_exclusive_counterexample :
    (canProceedAsync openAtHundred defaultConfig 100).1 = true ∧
    (canProceedAsync openAtHundred defaultConfig 100).2.state = .halfOpen ∧
    (canProceedAsync openAtHundred defaultConfig 100).2.success_count = 0 ∧
    (canProceedAsync (canProceedAsync openAtHundred defaultConfig 100).2
        defaultConfig 100).1 = true ∧
    (canProceedAsync (canProceedAsync openAtHundred defaultConfig 100).2
        defaultConfig 100).2 = (canProceedAsync openAtHundred defaultConfig 100).2 := by
  have h : canProceedAsync openAtHundred defaultConfig 100
      = (true, ⟨.halfOpen, 0, 0, none, none, 0, 0, 0, 0, none⟩) := by
    norm_num [canProceedAsync, openAtHundred, transitionToHalfOpen]
  rw [h]
  norm_num [canProceedAsync, defaultConfig]

/-- Claim C2, amended: while OPEN with `next_attempt_time = ta`, every
`CanProceed` call strictly before `ta` is denied (both the async and the
sync variant); at or after `ta` the next async call transitions the circuit
to HALF_OPEN — success and failure counters reset to 0 and
`next_attempt_time` cleared — before the probe executes, and is allowed.
But not exactly one probe: in HALF_OPEN every async call with
`success_count < success_threshold` is allowed (up to `success_threshold`
concurrent probes), and the sync `can_proceed` also returns true at/after
`ta` without transitioning. -/
theorem open_to_halfOpen_timing_amended
    (s : CircuitBreakerStats) (config : CircuitBreakerConfig) (m : CircuitMap)
    (service_name : String) (ta now : ℚ)
    (hst : s.state = .opened) (hn : s.next_attempt_time = some ta)
    (hm : m service_name = some s) :
    (now < ta →
      canProceedAsync s config now = (false, s) ∧
      (canProceedMethod m service_name config now).1 = false) ∧
    (ta ≤ now →
      (canProceedAsync s config now).1 = true ∧
      (canProceedAsync s config now).2 = transitionToHalfOpen s ∧
      (transitionToHalfOpen s).state = .halfOpen ∧
      (transitionToHalfOpen s).success_count = 0 ∧
      (transitionToHalfOpen s).failure_count = 0 ∧
      (transitionToHalfOpen s).next_attempt_time = none ∧
      (canProceedMethod m service_name config now).1 = true) ∧
    (∀ s', s'.state = .halfOpen →
      canProceedAsync s' config now
        = (decide (s'.success_count < config.success_threshold), s')) := by
  refine ⟨fun h => ⟨?_, ?_⟩, fun h => ⟨?_, ?_, rfl, rfl, rfl, rfl, ?_⟩, fun s' hs' => ?_⟩
  · simp [canProceedAsync, hst, hn, not_le.mpr h]
  · simp [canProceedMethod, hm, hst, hn, not_le.mpr h]
  · simp [canProceedAsync, hst, hn, h]
  · simp [canProceedAsync, hst, hn, h]
  · simp [canProceedMethod, hm, hst, hn, h]
  · simp [canProceedAsync, hs']

/-- Witness for the amended C2 at concrete inputs: the `openAtHundred`
circuit probed at times 100 (allowed, half-opens) and 99 (denied). -/
theorem open_to_halfOpen_timing_amended_witness :
    ((canProceedAsync openAtHundred defaultConfig 100).1 = true ∧
     (canProceedAsync openAtHundred defaultConfig 100).2
       = transitionToHalfOpen openAtHundred ∧
     (transitionToHalfOpen openAtHundred).state = .halfOpen ∧
     (transitionToHalfOpen openAtHundred).success_count = 0 ∧
     (transitionToHalfOpen openAtHundred).failure_count = 0 ∧
     (transitionToHalfOpen openAtHundred).next_attempt_time = none ∧
     (canProceedMethod openCircuitMap "svc" defaultConfig 100).1 = true) ∧
    (canProceedAsync openAtHundred defaultConfig 99 = (false, openAtHundred) ∧
     (canProceedMethod openCircuitMap "svc" defaultConfig 99).1 = false) :=
  ⟨(open_to_halfOpen_timing_amended openAtHundred defaultConfig openCircuitMap "svc"
      100 100 rfl rfl (by simp [openCircuitMap])).2.1 (le_refl 100),
   (open_to_halfOpen_timing_amended openAtHundred defaultConfig openCircuitMap "svc"
      100 99 rfl rfl (by simp [openCircuitMap])).1 (by norm_num)⟩

/-- Claim C3, counterexample: with the shared store erroring, the sliding
check returns allowed with the local cache untouched, even though the local
approximation on that very cache would have denied — the error path does NOT
fall back to the in-process approximation (that runs only when no store
client is configured). -/
theorem store_error_no_local_fallback_counterexample :
    (checkRateLimit .failing busyState "u" slideConfig 110).1.allowed = true ∧
    (checkRateLimit .failing busyState "u" slideConfig 110).2.localCache "u"
      = some busyEntry ∧
    (localCacheCheck (some busyEntry) slideConfig "sliding" 110).1.allowed = false := by
  refine ⟨?_, ?_, ?_⟩
  · norm_num [checkRateLimit, slidingWindowCheck, slideConfig, failOpenResult]
  · norm_num [checkRateLimit, slidingWindowCheck, slideConfig, failOpenResult, busyState]
  · norm_num [localCacheCheck, busyEntry, slideConfig, pyInt]

/-- Claim C3, amended: for every identifier and every strategy, a
shared-store error during `check_rate_limit` makes the limiter return an
allowed result (fail open, `requests_remaining` at the configured limit, no
`retry_after`) with a logged warning, leaving both the store state and the
local cache untouched; store errors never cause a rejection and never
propagate.  The in-process approximation is NOT consulted on store errors —
it serves only the no-client configuration. -/
theorem store_error_fails_open_amended (st : RateLimiterState) (identifier : String)
    (config : RateLimitConfig) (now : ℚ) :
    (checkRateLimit .failing st identifier config now).1.allowed = true ∧
    (checkRateLimit .failing st identifier config now).1.retry_after = none ∧
    (checkRateLimit .failing st identifier config now).2 = st := by
  cases h : config.strategy <;>
    simp [checkRateLimit, h, fixedWindowCheck, slidingWindowCheck,
      tokenBucketCheck, leakyBucketCheck, failOpenResult]

/-- Claim C4, counterexample: in the local-cache fallback of the token
bucket, a denied check (half a token stored, refilled to 0.7 < 1) rewrites
both the stored token count (0.5 → 0.7) and the `last_refill` timestamp
(0 → 0.2), contradicting "denied … leaves the stored tokens and last_refill
timestamp unchanged". -/
theorem token_bucket_local_deny_mutates_counterexample :
    (checkRateLimit .absent halfTokenState "u" tokenConfig (1/5)).1.allowed = false ∧
    ((checkRateLimit .absent halfTokenState "u" tokenConfig (1/5)).2.localCache "u").map
      LocalEntry.tokens = some (7/10) ∧
    ((checkRateLimit .absent halfTokenState "u" tokenConfig (1/5)).2.localCache "u").map
      LocalEntry.last_refill = some (1/5) ∧
    halfTokenEntry.tokens = 1/2 ∧ halfTokenEntry.last_refill = 0 := by
  refine ⟨?_, ?_, ?_, rfl, rfl⟩ <;>
    norm_num [checkRateLimit, tokenBucketCheck, tokenConfig, halfTokenState, halfTokenEntry,
      localCacheCheck, updateFn, pyInt, (by decide : ("token":String) ≠ "sliding")]

/-- Claim C4, amended: token-bucket invariants.  In the shared-store (Lua
script) path: the stored token count never exceeds `capacity` after any
check (given it did not before), an allowed check stores exactly the
refilled count minus 1, and a denied check writes nothing — tokens and
`last_refill` both unchanged.  In the local-cache fallback: tokens likewise
never exceed capacity and an allowed check consumes exactly 1 after refill,
but a denied check rewrites the entry to the refilled token count and
`last_refill = now` (an equivalent representation of the same bucket, yet a
mutation of the stored fields). -/
theorem token_bucket_bound_amended
    (b : Option TokenBucket) (cap rate now : ℚ) (e : LocalEntry)
    (config : RateLimitConfig)
    (hb : ∀ x, b = some x → x.tokens ≤ cap) :
    (∀ x, (tokenBucketScript b cap rate now).2.2 = some x → x.tokens ≤ cap) ∧
    ((tokenBucketScript b cap rate now).1 = true →
      (tokenBucketScript b cap rate now).2.2
        = some ⟨min cap ((b.map TokenBucket.tokens).getD cap
            + (now - (b.map TokenBucket.last_refill).getD now) * rate) - 1, now⟩) ∧
    ((tokenBucketScript b cap rate now).1 = false →
      (tokenBucketScript b cap rate now).2.2 = b) ∧
    (localCacheCheck (some e) config "token" now).2.tokens
      ≤ (config.bucket_capacity : ℚ) ∧
    ((localCacheCheck (some e) config "token" now).1.allowed = true →
      (localCacheCheck (some e) config "token" now).2.tokens
        = min (config.bucket_capacity : ℚ)
            (e.tokens + (now - e.last_refill) * config.refill_rate) - 1 ∧
      (localCacheCheck (some e) config "token" now).2.last_refill = now) ∧
    ((localCacheCheck (some e) config "token" now).1.allowed = false →
      (localCacheCheck (some e) config "token" now).2.tokens
        = min (config.bucket_capacity : ℚ)
            (e.tokens + (now - e.last_refill) * config.refill_rate) ∧
      (localCacheCheck (some e) config "token" now).2.last_refill = now) := by
  refine ⟨?_, ?_, ?_, ?_, ?_, ?_⟩
  · intro x hx
    simp only [tokenBucketScript] at hx
    split_ifs at hx with h
    · exact hb x hx
    · simp only [Option.some.injEq] at hx
      subst hx
      have hmin := min_le_left cap ((b.map TokenBucket.tokens).getD cap
        + (now - (b.map TokenBucket.last_refill).getD now) * rate)
      dsimp only
      linarith
  · intro h1
    simp only [tokenBucketScript] at h1 ⊢
    split_ifs at h1 ⊢ with h
    rfl
  · intro h1
    simp only [tokenBucketScript] at h1 ⊢
    split_ifs at h1 ⊢ with h
    rfl
  · rw [localCacheCheck_token]
    dsimp only [Option.getD_some]
    split_ifs with h
    · exact min_le_left _ _
    · have hmin := min_le_left ((config.bucket_capacity : ℚ))
        (e.tokens + (now - e.last_refill) * config.refill_rate)
      dsimp only
      linarith
  · intro h1
    rw [localCacheCheck_token] at h1 ⊢
    dsimp only [Option.getD_some] at h1 ⊢
    split_ifs at h1 ⊢ with h
    exact ⟨rfl, rfl⟩
  · intro h1
    rw [localCacheCheck_token] at h1 ⊢
    dsimp only [Option.getD_some] at h1 ⊢
    split_ifs at h1 ⊢ with h
    exact ⟨rfl, rfl⟩

/-- Witness for the amended C4 at a concrete input: a full bucket of
capacity 100 (stored hash present), checked at time 1; and the
`halfTokenEntry` local entry, denied at time 1/5. -/
theorem token_bucket_bound_amended_witness :
    (∀ x, (tokenBucketScript (some ⟨100, 0⟩) 100 1 (1/5)).2.2 = some x → x.tokens ≤ 100) ∧
    ((tokenBucketScript (some ⟨100, 0⟩) 100 1 (1/5)).1 = true →
      (tokenBucketScript (some ⟨100, 0⟩) 100 1 (1/5)).2.2
        = some ⟨min 100 (((some (⟨100, 0⟩ : TokenBucket)).map TokenBucket.tokens).getD 100
            + (1/5 - ((some (⟨100, 0⟩ : TokenBucket)).map
                TokenBucket.last_refill).getD (1/5)) * 1)
              - 1, 1/5⟩) ∧
    ((tokenBucketScript (some ⟨100, 0⟩) 100 1 (1/5)).1 = false →
      (tokenBucketScript (some ⟨100, 0⟩) 100 1 (1/5)).2.2 = some ⟨100, 0⟩) ∧
    (localCacheCheck (some halfTokenEntry) tokenConfig "token" (1/5)).2.tokens
      ≤ (tokenConfig.bucket_capacity : ℚ) ∧
    ((localCacheCheck (some halfTokenEntry) tokenConfig "token" (1/5)).1.allowed = true →
      (localCacheCheck (some halfTokenEntry) tokenConfig "token" (1/5)).2.tokens
        = min (tokenConfig.bucket_capacity : ℚ)
            (halfTokenEntry.tokens
              + (1/5 - halfTokenEntry.last_refill) * tokenConfig.refill_rate) - 1 ∧
      (localCacheCheck (some halfTokenEntry) tokenConfig "token" (1/5)).2.last_refill
        = 1/5) ∧
    ((localCacheCheck (some halfTokenEntry) tokenConfig "token" (1/5)).1.allowed = false →
      (localCacheCheck (some halfTokenEntry) tokenConfig "token" (1/5)).2.tokens
        = min (tokenConfig.bucket_capacity : ℚ)
            (halfTokenEntry.tokens
              + (1/5 - halfTokenEntry.last_refill) * tokenConfig.refill_rate) ∧
      (localCacheCheck (some halfTokenEntry) tokenConfig "token" (1/5)).2.last_refill
        = 1/5) :=
  token_bucket_bound_amended (some ⟨100, 0⟩) 100 1 (1/5) halfTokenEntry tokenConfig
    (by intro x hx; cases hx; norm_num)

/-- Claim C5, counterexample: after the five same-second requests, a sixth
check at 159.5 — still strictly inside the 60-second window of all five
(159.5 − 100 < 60) — is denied, but `retry_after = int(oldest + 60 − now) =
int(0.5) = 0`, which is not positive as the claim requires. -/
theorem sliding_retry_after_zero_counterexample :
    swCheck6Late.1.allowed = false ∧
    swCheck6Late.1.retry_after = some 0 ∧
    ((319 : ℚ)/2 - 100 < 60) := by
  refine ⟨?_, ?_, by norm_num⟩ <;>
    norm_num [swCheck6Late, swCheck5, swCheck4, swCheck3, swCheck2, swCheck1,
      slidingWindowCheckRedis, slideConfig, insertScore, pyInt, List.min?]

/-- Claim C5, amended: with `requests_per_minute = 5`, five sliding-window
checks in the same second are all allowed with `requests_remaining`
4, 3, 2, 1, 0 in order, and a sixth check within the same 60-second window is
denied with `requests_remaining = 0` and
`retry_after = int(oldest + 60 − now)` — positive when the sixth check comes
at least one second before the window closes (30 at `now = 130`), but 0 when
it falls within the window's final second. -/
theorem sliding_window_scenario_amended :
    (swCheck1.1.allowed = true ∧ swCheck1.1.requests_remaining = 4) ∧
    (swCheck2.1.allowed = true ∧ swCheck2.1.requests_remaining = 3) ∧
    (swCheck3.1.allowed = true ∧ swCheck3.1.requests_remaining = 2) ∧
    (swCheck4.1.allowed = true ∧ swCheck4.1.requests_remaining = 1) ∧
    (swCheck5.1.allowed = true ∧ swCheck5.1.requests_remaining = 0) ∧
    swCheck6.1.allowed = false ∧
    swCheck6.1.requests_remaining = 0 ∧
    swCheck6.1.retry_after = some (pyInt (100 + 60 - 130)) ∧
    swCheck6.1.retry_after = some 30 ∧
    swCheck6Late.1.allowed = false ∧
    swCheck6Late.1.retry_after = some (pyInt (100 + 60 - 319/2)) ∧
    swCheck6Late.1.retry_after = some 0 := by
  refine ⟨⟨?_, ?_⟩, ⟨?_, ?_⟩, ⟨?_, ?_⟩, ⟨?_, ?_⟩, ⟨?_, ?_⟩, ?_, ?_, ?_, ?_, ?_, ?_, ?_⟩ <;>
    norm_num [swCheck6Late, swCheck6, swCheck5, swCheck4, swCheck3, swCheck2, swCheck1,
      slidingWindowCheckRedis, slideConfig, insertScore, pyInt, List.min?]

/-- Claim C6: from HALF_OPEN with `success_threshold = 3` and the counters
freshly reset (as `_transition_to_half_open` guarantees on entry), the first
two successes keep the circuit HALF_OPEN, the third closes it with both
counters reset to 0, and any single failure while still HALF_OPEN (i.e.
before the 3rd success) immediately reopens the circuit with
`next_attempt_time = now + timeout`. -/
theorem halfOpen_exactness (s : CircuitBreakerStats) (config : CircuitBreakerConfig)
    (t1 t2 t3 r1 r2 r3 : ℚ)
    (hst : s.state = .halfOpen) (hsc : s.success_count = 0)
    (hth : config.success_threshold = 3) :
    (recordSuccess s config t1 r1).state = .halfOpen ∧
    (recordSuccess (recordSuccess s config t1 r1) config t2 r2).state = .halfOpen ∧
    (recordSuccess (recordSuccess (recordSuccess s config t1 r1) config t2 r2)
        config t3 r3).state = .closed ∧
    (recordSuccess (recordSuccess (recordSuccess s config t1 r1) config t2 r2)
        config t3 r3).success_count = 0 ∧
    (recordSuccess (recordSuccess (recordSuccess s config t1 r1) config t2 r2)
        config t3 r3).failure_count = 0 ∧
    (∀ s' now rt, s'.state = .halfOpen →
      (recordFailure s' config now rt).state = .opened ∧
      (recordFailure s' config now rt).next_attempt_time
        = some (now + config.timeout)) := by
  have h1 := recordSuccess_halfOpen_progress s config t1 r1 hst (by omega)
  have h2 := recordSuccess_halfOpen_progress (recordSuccess s config t1 r1) config
    t2 r2 h1.1 (by omega)
  have h3 := recordSuccess_halfOpen_close
    (recordSuccess (recordSuccess s config t1 r1) config t2 r2) config t3 r3 h2.1
    (by omega)
  exact ⟨h1.1, h2.1, h3.1, h3.2.1, h3.2.2.1,
    fun s' now rt hs' => recordFailure_halfOpen_reopens s' config now rt hs'⟩

/-- Witness for C6 at concrete inputs: a freshly half-opened circuit under
the default configuration (`success_threshold = 3`). -/
theorem halfOpen_exactness_witness :
    (recordSuccess halfOpenFresh defaultConfig 1 0).state = .halfOpen ∧
    (recordSuccess (recordSuccess halfOpenFresh defaultConfig 1 0)
        defaultConfig 2 0).state = .halfOpen ∧
    (recordSuccess (recordSuccess (recordSuccess halfOpenFresh defaultConfig 1 0)
        defaultConfig 2 0) defaultConfig 3 0).state = .closed ∧
    (recordSuccess (recordSuccess (recordSuccess halfOpenFresh defaultConfig 1 0)
        defaultConfig 2 0) defaultConfig 3 0).success_count = 0 ∧
    (recordSuccess (recordSuccess (recordSuccess halfOpenFresh defaultConfig 1 0)
        defaultConfig 2 0) defaultConfig 3 0).failure_count = 0 ∧
    ((recordFailure halfOpenFresh defaultConfig 7 0).state = .opened ∧
     (recordFailure halfOpenFresh defaultConfig 7 0).next_attempt_time
       = some (7 + (defaultConfig.timeout : ℚ))) := by
  have H := halfOpen_exactness halfOpenFresh defaultConfig 1 2 3 0 0 0 rfl rfl rfl
  exact ⟨H.1, H.2.1, H.2.2.1, H.2.2.2.1, H.2.2.2.2.1, H.2.2.2.2.2 halfOpenFresh 7 0 rfl⟩

/-- Every `CircuitState` value is CLOSED, OPEN or HALF_OPEN. -/
theorem circuitState_trichotomy (x : CircuitState) :
    x = .closed ∨ x = .opened ∨ x = .halfOpen := by
  cases x <;> simp

/-- Claim C7: every operation on a service's stats record preserves the
data-model invariant — the state is one of the three enum values and
`next_attempt_time` is set only while OPEN — and both counters are 0
immediately after every transition into HALF_OPEN or into CLOSED. -/
theorem stats_invariant_preserved (config : CircuitBreakerConfig) (op : CircuitOp)
    (s : CircuitBreakerStats) (hInv : StatsInv s) :
    StatsInv (applyCircuitOp config op s) ∧
    ((applyCircuitOp config op s).state = .closed ∨
     (applyCircuitOp config op s).state = .opened ∨
     (applyCircuitOp config op s).state = .halfOpen) ∧
    ((applyCircuitOp config op s).state = .halfOpen ∧ s.state ≠ .halfOpen →
      (applyCircuitOp config op s).success_count = 0 ∧
      (applyCircuitOp config op s).failure_count = 0) ∧
    ((applyCircuitOp config op s).state = .closed ∧ s.state ≠ .closed →
      (applyCircuitOp config op s).success_count = 0 ∧
      (applyCircuitOp config op s).failure_count = 0) := by
  cases op with
  | recSuccess now rt =>
      simp only [applyCircuitOp]
      rcases recordSuccess_fields s config now rt with h | h
      · refine ⟨?_, circuitState_trichotomy _, ?_, ?_⟩
        · intro hne
          rw [h.2.2.2] at hne
          rw [h.1]
          exact hInv hne
        · rintro ⟨hh, hne⟩
          rw [h.1] at hh
          exact absurd hh hne
        · rintro ⟨hh, hne⟩
          rw [h.1] at hh
          exact absurd hh hne
      · refine ⟨?_, circuitState_trichotomy _, ?_, ?_⟩
        · intro hne
          rw [h.2.2.2.2.2] at hne
          exact absurd rfl hne
        · rintro ⟨hh, _⟩
          rw [h.2.2.1] at hh
          exact CircuitState.noConfusion hh
        · intro _
          exact ⟨h.2.2.2.1, h.2.2.2.2.1⟩
  | recFailure now rt =>
      simp only [applyCircuitOp]
      obtain ⟨hsc, hrest⟩ := recordFailure_fields s config now rt
      rcases hrest with h | h
      · refine ⟨?_, circuitState_trichotomy _, ?_, ?_⟩
        · intro hne
          rw [h.2] at hne
          rw [h.1]
          exact hInv hne
        · rintro ⟨hh, hne⟩
          rw [h.1] at hh
          exact absurd hh hne
        · rintro ⟨hh, hne⟩
          rw [h.1] at hh
          exact absurd hh hne
      · refine ⟨?_, circuitState_trichotomy _, ?_, ?_⟩
        · intro _
          exact h.1
        · rintro ⟨hh, _⟩
          rw [h.1] at hh
          exact CircuitState.noConfusion hh
        · rintro ⟨hh, _⟩
          rw [h.1] at hh
          exact CircuitState.noConfusion hh
  | proceed now =>
      simp only [applyCircuitOp]
      rcases canProceedAsync_fields s config now with h | h | h
      · rw [h]
        refine ⟨hInv, circuitState_trichotomy _, ?_, ?_⟩
        · rintro ⟨hh, hne⟩
          exact absurd hh hne
        · rintro ⟨hh, hne⟩
          exact absurd hh hne
      · rw [h.2]
        refine ⟨?_, circuitState_trichotomy _, ?_, ?_⟩
        · intro _
          rfl
        · rintro ⟨hh, _⟩
          exact CircuitState.noConfusion hh
        · rintro ⟨hh, _⟩
          exact CircuitState.noConfusion hh
      · rw [h.2]
        refine ⟨?_, circuitState_trichotomy _, ?_, ?_⟩
        · intro hne
          exact absurd rfl hne
        · intro _
          exact ⟨rfl, rfl⟩
        · rintro ⟨hh, _⟩
          exact CircuitState.noConfusion hh
  | reset =>
      simp only [applyCircuitOp]
      refine ⟨?_, circuitState_trichotomy _, ?_, ?_⟩
      · intro hne
        exact absurd rfl hne
      · rintro ⟨hh, _⟩
        exact CircuitState.noConfusion hh
      · intro _
        exact ⟨rfl, rfl⟩

/-- Witness for C7 at a concrete input: the probe operation at time 100 on
the `openAtHundred` circuit (which satisfies the invariant). -/
theorem stats_invariant_preserved_witness :
    StatsInv (applyCircuitOp defaultConfig (.proceed 100) openAtHundred) ∧
    ((applyCircuitOp defaultConfig (.proceed 100) openAtHundred).state = .closed ∨
     (applyCircuitOp defaultConfig (.proceed 100) openAtHundred).state = .opened ∨
     (applyCircuitOp defaultConfig (.proceed 100) openAtHundred).state = .halfOpen) ∧
    ((applyCircuitOp defaultConfig (.proceed 100) openAtHundred).state = .halfOpen ∧
        openAtHundred.state ≠ .halfOpen →
      (applyCircuitOp defaultConfig (.proceed 100) openAtHundred).success_count = 0 ∧
      (applyCircuitOp defaultConfig (.proceed 100) openAtHundred).failure_count = 0) ∧
    ((applyCircuitOp defaultConfig (.proceed 100) openAtHundred).state = .closed ∧
        openAtHundred.state ≠ .closed →
      (applyCircuitOp defaultConfig (.proceed 100) openAtHundred).success_count = 0 ∧
      (applyCircuitOp defaultConfig (.proceed 100) openAtHundred).failure_count = 0) :=
  stats_invariant_preserved defaultConfig (.proceed 100) openAtHundred (fun _ => rfl)

/-- Claim C9: `reset` returns both entities to their empty baseline whatever
the prior state — the circuit breaker to a fresh CLOSED record with zero
counters and no `next_attempt_time`, the rate limiter with every
per-strategy store key and the local cache entry for the identifier cleared
— and resetting twice yields exactly the state of resetting once. -/
theorem reset_idempotent_baseline (circuits : CircuitMap) (service_name : String)
    (st : RateLimiterState) (identifier : String) :
    resetCircuit circuits service_name service_name = some freshStats ∧
    freshStats.state = .closed ∧ freshStats.failure_count = 0 ∧
    freshStats.success_count = 0 ∧ freshStats.total_requests = 0 ∧
    freshStats.failed_requests = 0 ∧ freshStats.slow_requests = 0 ∧
    freshStats.next_attempt_time = none ∧
    resetCircuit (resetCircuit circuits service_name) service_name
      = resetCircuit circuits service_name ∧
    (resetRateLimit st identifier).fixedStore identifier = (fun _ => 0) ∧
    (resetRateLimit st identifier).slidingStore identifier = [] ∧
    (resetRateLimit st identifier).tokenStore identifier = none ∧
    (resetRateLimit st identifier).leakyStore identifier = none ∧
    (resetRateLimit st identifier).localCache identifier = none ∧
    resetRateLimit (resetRateLimit st identifier) identifier
      = resetRateLimit st identifier := by
  refine ⟨by simp [resetCircuit], rfl, rfl, rfl, rfl, rfl, rfl, rfl, ?_,
    by simp [resetRateLimit], by simp [resetRateLimit], by simp [resetRateLimit],
    by simp [resetRateLimit], by simp [resetRateLimit], ?_⟩
  · funext s
    by_cases h : s = service_name <;> simp [resetCircuit, h]
  · unfold resetRateLimit
    congr 1 <;> funext s <;> by_cases h : s = identifier <;> simp [h]

/-- Claim C10: the synchronous `can_proceed` query is read-only — it returns
the circuits map unchanged, performing no state transition and no stats
mutation — and for a service with no recorded stats it returns `true`. -/
theorem can_proceed_query_pure (circuits : CircuitMap) (service_name : String)
    (config : CircuitBreakerConfig) (now : ℚ) :
    (canProceedMethod circuits service_name config now).2 = circuits ∧
    (circuits service_name = none →
      (canProceedMethod circuits service_name config now).1 = true) := by
  constructor
  · cases h : circuits service_name with
    | none => simp [canProceedMethod, h]
    | some stats =>
      cases hs : stats.state with
      | closed => simp [canProceedMethod, h, hs]
      | opened =>
          cases hn : stats.next_attempt_time <;> simp [canProceedMethod, h, hs, hn]
      | halfOpen => simp [canProceedMethod, h, hs]
  · intro h
    simp [canProceedMethod, h]

set_option maxHeartbeats 1600000 in
/-- Claim C8: invalid configuration values fail at construction time — a
non-positive refill rate, a non-positive failure threshold and a
`slow_call_rate_threshold` outside (0, 1] each make the pydantic constructor
return a validation error — and every configuration a constructor accepts
satisfies all the field constraints, so a check operation (which only ever
receives constructed configurations) never observes an invalid one at
request time. -/
theorem config_validation_fails_fast :
    (∀ (strat : RateLimitStrategy) (rpm rph rpd burst cap : ℤ) (refill leak : ℚ),
      refill ≤ 0 →
      ∃ e, mkRateLimitConfig strat rpm rph rpd burst cap refill leak = .error e) ∧
    (∀ (ft st tmo : ℤ) (slowd slowr : ℚ) (minc win maxw : ℤ), ft ≤ 0 →
      ∃ e, mkCircuitBreakerConfig ft st tmo slowd slowr minc win maxw = .error e) ∧
    (∀ (ft st tmo : ℤ) (slowd slowr : ℚ) (minc win maxw : ℤ),
      slowr ≤ 0 ∨ 1 < slowr →
      ∃ e, mkCircuitBreakerConfig ft st tmo slowd slowr minc win maxw = .error e) ∧
    (∀ (strat : RateLimitStrategy) (rpm rph rpd burst cap : ℤ) (refill leak : ℚ) c,
      mkRateLimitConfig strat rpm rph rpd burst cap refill leak = .ok c → c.Valid) ∧
    (∀ (ft st tmo : ℤ) (slowd slowr : ℚ) (minc win maxw : ℤ) c,
      mkCircuitBreakerConfig ft st tmo slowd slowr minc win maxw = .ok c → c.Valid) := by
  refine ⟨?_, ?_, ?_, ?_, ?_⟩
  · intro strat rpm rph rpd burst cap refill leak h
    unfold mkRateLimitConfig
    split_ifs <;> first | exact ⟨_, rfl⟩ | linarith
  · intro ft st tmo slowd slowr minc win maxw h
    unfold mkCircuitBreakerConfig
    split_ifs <;> first | exact ⟨_, rfl⟩ | omega
  · intro ft st tmo slowd slowr minc win maxw h
    unfold mkCircuitBreakerConfig
    split_ifs <;> first | exact ⟨_, rfl⟩ | (rcases h with h | h <;> linarith)
  · intro strat rpm rph rpd burst cap refill leak c h
    unfold mkRateLimitConfig at h
    split_ifs at h with h1 h2 h3 h4 h5 h6 h7
    injection h with h'
    subst h'
    push_neg at h1 h2 h3 h4 h5 h6 h7
    exact ⟨h1, h2, h3, h4, h5, h6, h7⟩
  · intro ft st tmo slowd slowr minc win maxw c h
    unfold mkCircuitBreakerConfig at h
    split_ifs at h with h1 h2 h3 h4 h5 h6 h7 h8 h9
    injection h with h'
    subst h'
    push_neg at h1 h2 h3 h4 h5 h6 h7 h8 h9
    exact ⟨h1, h2, h3, h4, ⟨h5, h6⟩, h7, h8, h9⟩

/-- Witness for C8 at concrete inputs: a zero refill rate, a zero failure
threshold and a slow-call-rate threshold of 2 are each rejected, while fully
valid arguments yield configurations satisfying every constraint. -/
theorem config_validation_fails_fast_witness :
    (∃ e, mkRateLimitConfig .slidingWindow 1 1 1 1 1 0 1 = .error e) ∧
    (∃ e, mkCircuitBreakerConfig 0 1 1 1 1 1 10 1 = .error e) ∧
    (∃ e, mkCircuitBreakerConfig 1 1 1 1 2 1 10 1 = .error e) ∧
    RateLimitConfig.Valid ⟨.slidingWindow, 1, 1, 1, 1, 1, 1, 1⟩ ∧
    CircuitBreakerConfig.Valid ⟨1, 1, 1, 1, 1, 1, 10, 1⟩ :=
  ⟨config_validation_fails_fast.1 .slidingWindow 1 1 1 1 1 0 1 (le_refl 0),
   config_validation_fails_fast.2.1 0 1 1 1 1 1 10 1 (le_refl 0),
   config_validation_fails_fast.2.2.1 1 1 1 1 2 1 10 1 (Or.inr (by norm_num)),
   config_validation_fails_fast.2.2.2.1 .slidingWindow 1 1 1 1 1 1 1
     ⟨.slidingWindow, 1, 1, 1, 1, 1, 1, 1⟩ (by norm_num [mkRateLimitConfig]),
   config_validation_fails_fast.2.2.2.2 1 1 1 1 1 1 10 1
     ⟨1, 1, 1, 1, 1, 1, 10, 1⟩ (by norm_num [mkCircuitBreakerConfig])⟩

/-- Witness for C10 at a concrete input: the empty circuits map and the
`"trading"` service. -/
theorem can_proceed_query_pure_witness :
    (canProceedMethod (fun _ => none) "trading" defaultConfig 0).2
      = (fun _ => none) ∧
    ((fun _ => (none : Option CircuitBreakerStats)) "trading" = none →
      (canProceedMethod (fun _ => none) "trading" defaultConfig 0).1 = true) :=
  can_proceed_query_pure (fun _ => none) "trading" defaultConfig 0

end Gateway
